import Mathlib

/-!
Shallow embedding of the county-level tidal-flooding imputation pipeline
(`src/imputation/main.py` and `src/preprocessing/coastal_points.py`).

Distances and weights are modelled as exact rationals; pandas DataFrames are
modelled as lists of records; region dictionaries become structures; Python
exceptions become `Except` values; file-system writes become an explicit list
of written artifacts returned by the orchestrator.
-/

namespace Imputation

/-- A Python exception value (only its message matters to the embedding). -/
structure PyErr where
  msg : String
deriving Repr, DecidableEq

/-- One candidate gauge inside a RawMapping, as produced by
`NearestGaugeFinder.find_nearest`: station identity plus the distance from the
reference point, in meters. -/
structure GaugeCand where
  station_id : String
  station_name : String
  sub_region : String
  distance_meters : ℚ
deriving Repr, DecidableEq

/-- A raw mapping for one reference point: its identity, owning county, and
the list of candidate gauges with distances. -/
structure RawMapping where
  reference_point_id : String
  county_fips : String
  mappings : List GaugeCand
deriving Repr, DecidableEq

/-- A candidate gauge after weight calculation: the raw fields plus `weight`. -/
structure WGauge where
  station_id : String
  station_name : String
  sub_region : String
  distance_meters : ℚ
  weight : ℚ
deriving Repr, DecidableEq

/-- A weighted mapping for one reference point. -/
structure WMapping where
  reference_point_id : String
  county_fips : String
  mappings : List WGauge
deriving Repr, DecidableEq

/-- Modelled from the spec: `weight_calculator.py` is not under `src/`
(`main.py` only imports `WeightCalculator` from it).  Per spec section 4.2 step 3
the raw weight is `1 / distance ** power` with the guard `distance == 0 →
weight = 1.0 (maximum)`, per step 4 the weight is clamped to be `≥ min_weight`,
and per section 3 / section 8 every weight lies in `[min_weight, 1.0]`, so the
raw weight is also capped at the stated maximum 1.0. -/
def gauge_weight (power : ℕ) (min_weight : ℚ) (d : ℚ) : ℚ :=
  if d = 0 then 1 else min 1 (max min_weight (1 / d ^ power))

/-- Modelled from the spec: `weight_calculator.py` is not under `src/`.
Per spec section 4.2 step 1, candidates with `distance_meters >
max_distance_meters` are dropped; per the spec sentences cited for the
distance-cutoff invariant ("else the candidate must be excluded (not included
with near-zero weight)") the drop-point policy is used, so a gauge beyond the
cutoff never reappears.  Remaining candidates get `gauge_weight`. -/
def calculate_weights (max_distance_meters : ℚ) (power : ℕ) (min_weight : ℚ)
    (mappings : List RawMapping) : List WMapping :=
  mappings.map fun m =>
    { reference_point_id := m.reference_point_id
      county_fips := m.county_fips
      mappings :=
        (m.mappings.filter (fun g => g.distance_meters ≤ max_distance_meters)).map
          fun g =>
            { station_id := g.station_id
              station_name := g.station_name
              sub_region := g.sub_region
              distance_meters := g.distance_meters
              weight := gauge_weight power min_weight g.distance_meters } }

/-- The region configuration dictionary slice passed to `process_region`
(`region_info`): the display name and the member state codes. -/
structure RegionInfo where
  name : String
  state_codes : List String
deriving Repr, DecidableEq

/-- One flattened output row (`records.append({...})` in `process_region`,
main.py lines 92-102): exactly the nine persisted columns. -/
structure MappingRecord where
  reference_point_id : String
  county_fips : String
  region : String
  region_name : String
  station_id : String
  station_name : String
  sub_region : String
  distance_meters : ℚ
  weight : ℚ
deriving Repr, DecidableEq

/-- The record built for one (reference point, candidate gauge) pair. -/
def mkRecord (region : String) (region_info : RegionInfo) (m : WMapping)
    (g : WGauge) : MappingRecord :=
  { reference_point_id := m.reference_point_id
    county_fips := m.county_fips
    region := region
    region_name := region_info.name
    station_id := g.station_id
    station_name := g.station_name
    sub_region := g.sub_region
    distance_meters := g.distance_meters
    weight := g.weight }

/-- The flattening loop of `process_region` (main.py lines 89-104): one row per
(reference point, candidate gauge) pair, in iteration order. -/
def toRecords (region : String) (region_info : RegionInfo)
    (weighted_mappings : List WMapping) : List MappingRecord :=
  weighted_mappings.flatMap fun m =>
    m.mappings.map fun g => mkRecord region region_info m g

/-- `Series.nunique()`: the number of distinct values in a column. -/
def nunique (l : List String) : ℕ := l.dedup.length

/-- `Series.mean()`: arithmetic mean of a column (0 on an empty column, where
pandas would give NaN; the statistics are never consulted by the result). -/
def listMean (l : List ℚ) : ℚ := l.sum / l.length

/-- Per-sub-region statistics logged by `process_region`
(main.py lines 120-133). -/
structure SubStats where
  sub_region : String
  sub_stations : ℕ
  sub_counties : ℕ
  avg_distance : ℚ
  avg_weight : ℚ
deriving Repr, DecidableEq

/-- Region-level statistics logged by `process_region`
(main.py lines 107-133). -/
structure RegionStats where
  total_counties : ℕ
  total_stations : ℕ
  total_mappings : ℕ
  sub_stats : List SubStats
deriving Repr, DecidableEq

/-- The statistics block of `process_region` (main.py lines 107-133):
distinct-county / distinct-station / row counts, then for each nonempty
sub-region label (`sorted(df.sub_region.unique())`, skipping falsy labels) the
station and county counts and the mean distance and weight over its rows. -/
def regionStats (df : List MappingRecord) : RegionStats :=
  { total_counties := nunique (df.map (·.county_fips))
    total_stations := nunique (df.map (·.station_id))
    total_mappings := df.length
    sub_stats :=
      (((df.map (·.sub_region)).dedup.mergeSort (fun a b => decide (a ≤ b))).filter
          (fun s => s ≠ "")).map fun sub =>
        let sub_df := df.filter (fun r => r.sub_region = sub)
        { sub_region := sub
          sub_stations := nunique (sub_df.map (·.station_id))
          sub_counties := nunique (sub_df.map (·.county_fips))
          avg_distance := listMean (sub_df.map (·.distance_meters))
          avg_weight := listMean (sub_df.map (·.weight)) }
  }

/-- `process_region` (main.py lines 46-139).  The external
`NearestGaugeFinder.find_nearest` call (from `spatial_ops.py`, not under
`src/`) is represented by its outcome `find_result`: either the list of raw
mappings it returned or the exception it (or any earlier statement of the
`try` block) raised.  The whole body runs inside `try/except Exception`, so an
exception outcome yields `None`.  An empty mapping list yields `None`
(lines 81-83).  Otherwise `WeightCalculator(100000, 2, 0.1)` weights the
mappings (lines 68-72, 86), the records are flattened (lines 89-104), and the
statistics of lines 107-133 are computed for logging; the returned pair is the
DataFrame result together with the logged statistics. -/
def process_region (region : String) (region_info : RegionInfo)
    (find_result : Except PyErr (List RawMapping)) :
    Option (List MappingRecord) × Option RegionStats :=
  match find_result with
  | .error _ => (none, none)
  | .ok mappings =>
    if mappings.isEmpty then (none, none)
    else
      let weighted_mappings := calculate_weights 100000 2 (1/10) mappings
      let df := toRecords region region_info weighted_mappings
      let stats := if df.isEmpty then none else some (regionStats df)
      (some df, stats)

/-- `process_region` with the statistics block of lines 107-133 removed:
used to state that the statistics are observability only. -/
def process_region_noStats (region : String) (region_info : RegionInfo)
    (find_result : Except PyErr (List RawMapping)) :
    Option (List MappingRecord) :=
  match find_result with
  | .error _ => none
  | .ok mappings =>
    if mappings.isEmpty then none
    else some (toRecords region region_info (calculate_weights 100000 2 (1/10) mappings))

/-- A reference point as loaded by `DataLoader.load_reference_points`
(its geometry is irrelevant to the orchestration claims). -/
structure RefPoint where
  id : String
  county_fips : String
  region : String
deriving Repr, DecidableEq

/-- A gauge station as loaded by `DataLoader.load_gauge_stations`. -/
structure GaugeStation where
  station_id : String
  station_name : String
  sub_region : String
deriving Repr, DecidableEq

/-- The data sources on disk read by the `DataLoader`. -/
structure Env where
  refData : List RefPoint
  gaugeData : List GaugeStation
deriving Repr, DecidableEq

/-- Modelled from the spec: `data_loader.py` is not under `src/`; per spec
section 4.4 the orchestrator "loads reference points and gauge stations
exactly once".  Loading returns the dataset and increments a load counter so
that "exactly once" is a provable statement about `run`. -/
def load_reference_points (env : Env) (count : ℕ) : List RefPoint × ℕ :=
  (env.refData, count + 1)

/-- Modelled from the spec: `data_loader.py` is not under `src/`.
Gauge-station counterpart of `load_reference_points`. -/
def load_gauge_stations (env : Env) (count : ℕ) : List GaugeStation × ℕ :=
  (env.gaugeData, count + 1)

/-- A parquet file written by `save_imputation_structure`: its region and
timestamp (which determine the file name) and the DataFrame written. -/
structure Artifact where
  region : String
  timestamp : String
  df : List MappingRecord
deriving Repr, DecidableEq

/-- The output file name `imputation_structure_{region}_{timestamp}.parquet`
built in `save_imputation_structure` (main.py line 212). -/
def artifactPath (region timestamp : String) : String :=
  "imputation_structure_" ++ region ++ "_" ++ timestamp ++ ".parquet"

/-- `ImputationManager.save_imputation_structure` (main.py lines 193-219):
given the DataFrame (possibly `None`) and the region, returns the path of the
saved file — `None`, with no write, when the DataFrame is `None` or empty —
together with the list of files written (empty or a singleton). -/
def save_imputation_structure (df : Option (List MappingRecord))
    (region timestamp : String) : Option String × List Artifact :=
  match df with
  | none => (none, [])
  | some d =>
    if d.isEmpty then (none, [])
    else (some (artifactPath region timestamp), [⟨region, timestamp, d⟩])

/-- The collection loop of `ImputationManager.run` (main.py lines 252-264),
iterating over completed futures in completion order `regions`.  `worker r` is
the outcome of `future.result()` for region `r`: an exception surfaced by the
worker, or `process_region`'s return value.  An exception is caught and the
region skipped; a `None` DataFrame is skipped; otherwise the DataFrame is
saved and, when a path was returned, `output_files[region] = path` recorded.
One iteration updates the accumulated `output_files` association list and the
list of artifacts written. -/
def collectStep (worker : String → Except PyErr (Option (List MappingRecord)))
    (ts : String → String) (acc : List (String × String) × List Artifact)
    (region : String) : List (String × String) × List Artifact :=
  match worker region with
  | .error _ => acc
  | .ok df =>
    match df with
    | none => acc
    | some d =>
      match save_imputation_structure (some d) region (ts region) with
      | (none, w) => (acc.1, acc.2 ++ w)
      | (some p, w) => (acc.1 ++ [(region, p)], acc.2 ++ w)

/-- The whole collection loop of `ImputationManager.run` (main.py
lines 252-264), folding `collectStep` over the futures in completion order
`regions`: returns the accumulated `output_files` association list and the
artifacts written. -/
def runCollect (worker : String → Except PyErr (Option (List MappingRecord)))
    (ts : String → String) (regions : List String) :
    List (String × String) × List Artifact :=
  regions.foldl (collectStep worker ts) ([], [])

/-- The `output_files` entry contributed by one region: present exactly when
its worker returned a non-empty DataFrame. -/
def collectEntry (worker : String → Except PyErr (Option (List MappingRecord)))
    (ts : String → String) (region : String) : Option (String × String) :=
  match worker region with
  | .ok (some d) =>
    if d.isEmpty then none else some (region, artifactPath region (ts region))
  | _ => none

/-- The artifact written for one region: present exactly when its worker
returned a non-empty DataFrame. -/
def collectWrite (worker : String → Except PyErr (Option (List MappingRecord)))
    (ts : String → String) (region : String) : Option Artifact :=
  match worker region with
  | .ok (some d) =>
    if d.isEmpty then none else some ⟨region, ts region, d⟩
  | _ => none

/-- The observable outcome of one `ImputationManager.run()` call: the returned
`output_files` dictionary (as an association list), how many times each
dataset was loaded, which regions were submitted to the pool, and which files
were written. -/
structure RunOutcome where
  output_files : List (String × String)
  refLoads : ℕ
  gaugeLoads : ℕ
  dispatched : List String
  written : List Artifact
deriving Repr, DecidableEq

/-- The worker function submitted to the pool for each region (main.py
lines 241-250) together with the surfacing of the future's outcome at
`future.result()` (line 258): an infrastructure failure of the future is an
exception; otherwise the worker ran `process_region` on the shared loaded
data and the region's configuration slice. -/
def runWorker (config : String → RegionInfo)
    (finder : String → List RefPoint → List GaugeStation →
      Except PyErr (List RawMapping))
    (futureErr : String → Option PyErr)
    (reference_points : List RefPoint) (gauge_stations : List GaugeStation) :
    String → Except PyErr (Option (List MappingRecord)) :=
  fun r =>
    match futureErr r with
    | some e => Except.error e
    | none =>
      Except.ok (process_region r (config r)
        (finder r reference_points gauge_stations)).1

/-- `ImputationManager.run` (main.py lines 221-266).  `config` is
`self.region_config`; `finder r rp gs` is the outcome of the external
`NearestGaugeFinder.find_nearest` inside region `r`'s worker; `futureErr r` is
an infrastructure failure of region `r`'s future surfaced at
`future.result()` (`none` when the future completes normally); `ts r` is the
save timestamp for region `r`; `regions` is the completion order of the
futures.  The data is loaded once (lines 230-232); if either dataset is empty
the empty dictionary is returned with nothing dispatched or written
(lines 234-236); otherwise each region's worker runs `process_region` and the
collection loop accumulates the results. -/
def ImputationManager.run (env : Env) (config : String → RegionInfo)
    (finder : String → List RefPoint → List GaugeStation →
      Except PyErr (List RawMapping))
    (futureErr : String → Option PyErr) (ts : String → String)
    (regions : List String) : RunOutcome :=
  let (reference_points, nRef) := load_reference_points env 0
  let (gauge_stations, nGauge) := load_gauge_stations env 0
  if reference_points.isEmpty || gauge_stations.isEmpty then
    { output_files := [], refLoads := nRef, gaugeLoads := nGauge
      dispatched := [], written := [] }
  else
    let worker := runWorker config finder futureErr reference_points gauge_stations
    let (res, w) := runCollect worker ts regions
    { output_files := res, refLoads := nRef, gaugeLoads := nGauge
      dispatched := regions, written := w }

end Imputation

namespace CoastalPoints

/-- The region definition dictionary consulted by `get_region_projection`
(`coastal_points.py`): only the optional `projection` key matters. -/
structure RegionDef where
  projection : Option String
deriving Repr, DecidableEq

/-- The Alaska-specific Albers projection string
(coastal_points.py lines 52-53). -/
def alaska_albers_proj : String :=
  "+proj=aea +lat_1=55 +lat_2=65 +lat_0=50 +lon_0=-154 " ++
  "+x_0=0 +y_0=0 +ellps=GRS80 +datum=NAD83 +units=m +no_defs"

/-- The West Coast / Pacific Albers projection string
(coastal_points.py lines 57-58). -/
def west_coast_albers_proj : String :=
  "+proj=aea +lat_1=34 +lat_2=45.5 +lat_0=40 +lon_0=-120 " ++
  "+x_0=0 +y_0=0 +ellps=GRS80 +datum=NAD83 +units=m +no_defs"

/-- The default continental-US Albers Equal Area projection string
(coastal_points.py lines 63-64). -/
def conus_albers_proj : String :=
  "+proj=aea +lat_1=20 +lat_2=60 +lat_0=40 +lon_0=-96 " ++
  "+x_0=0 +y_0=0 +ellps=GRS80 +datum=NAD83 +units=m +no_defs"

/-- `get_region_projection` (coastal_points.py lines 34-66): a config-defined
projection wins; otherwise `alaska`, then `west_coast` / `pacific_islands`,
get named overrides; every other region gets the CONUS default. -/
def get_region_projection (region_name : String) (region_def : RegionDef) :
    String :=
  match region_def.projection with
  | some proj => proj
  | none =>
    if region_name = "alaska" then alaska_albers_proj
    else if region_name = "west_coast" ∨ region_name = "pacific_islands" then
      west_coast_albers_proj
    else conus_albers_proj

end CoastalPoints


namespace Imputation

theorem collectStep_eq (worker : String → Except PyErr (Option (List MappingRecord)))
    (ts : String → String) (acc : List (String × String) × List Artifact)
    (region : String) :
    collectStep worker ts acc region =
      (acc.1 ++ (collectEntry worker ts region).toList,
       acc.2 ++ (collectWrite worker ts region).toList) := by
  unfold collectStep collectEntry collectWrite
  cases h : worker region with
  | error e => simp
  | ok df =>
    cases df with
    | none => simp
    | some d =>
      by_cases hd : d.isEmpty
      · simp [save_imputation_structure, hd]
      · simp [save_imputation_structure, hd]

theorem runCollect_go (worker : String → Except PyErr (Option (List MappingRecord)))
    (ts : String → String) (regions : List String) :
    ∀ acc : List (String × String) × List Artifact,
      regions.foldl (collectStep worker ts) acc =
        (acc.1 ++ regions.filterMap (collectEntry worker ts),
         acc.2 ++ regions.filterMap (collectWrite worker ts)) := by
  induction regions with
  | nil => intro acc; simp
  | cons r rs ih =>
    intro acc
    simp only [List.foldl_cons, ih, collectStep_eq, List.filterMap_cons]
    cases he : collectEntry worker ts r <;> cases hw : collectWrite worker ts r <;>
      simp [Option.toList]

/-- The collection loop is a `filterMap` over the completion order: each
region contributes its own entry and artifact independently. -/
theorem runCollect_eq (worker : String → Except PyErr (Option (List MappingRecord)))
    (ts : String → String) (regions : List String) :
    runCollect worker ts regions =
      (regions.filterMap (collectEntry worker ts),
       regions.filterMap (collectWrite worker ts)) := by
  unfold runCollect
  simpa using runCollect_go worker ts regions ([], [])

theorem collectEntry_fst (worker : String → Except PyErr (Option (List MappingRecord)))
    (ts : String → String) (region : String) (pr : String × String)
    (h : collectEntry worker ts region = some pr) : pr.1 = region := by
  unfold collectEntry at h
  cases hw : worker region with
  | error e => rw [hw] at h; exact absurd h (by simp)
  | ok df =>
    cases df with
    | none => rw [hw] at h; exact absurd h (by simp)
    | some d =>
      rw [hw] at h
      by_cases hd : d.isEmpty
      · simp [hd] at h
      · simp [hd] at h
        rw [← h]

theorem run_eq (env : Env) (config : String → RegionInfo)
    (finder : String → List RefPoint → List GaugeStation →
      Except PyErr (List RawMapping))
    (futureErr : String → Option PyErr) (ts : String → String)
    (regions : List String) :
    ImputationManager.run env config finder futureErr ts regions =
      if env.refData.isEmpty || env.gaugeData.isEmpty then
        { output_files := [], refLoads := 1, gaugeLoads := 1
          dispatched := [], written := [] }
      else
        { output_files :=
            regions.filterMap (collectEntry
              (runWorker config finder futureErr env.refData env.gaugeData) ts)
          refLoads := 1, gaugeLoads := 1, dispatched := regions
          written :=
            regions.filterMap (collectWrite
              (runWorker config finder futureErr env.refData env.gaugeData) ts) } := by
  unfold ImputationManager.run load_reference_points load_gauge_stations
  by_cases h : env.refData.isEmpty || env.gaugeData.isEmpty
  · simp [h]
  · simp [h, runCollect_eq]

/-- Membership in the `output_files` of a run: an entry exists exactly for a
region of the completion order whose worker produced it. -/
theorem mem_runCollect_fst
    (worker : String → Except PyErr (Option (List MappingRecord)))
    (ts : String → String) (regions : List String) (pr : String × String) :
    pr ∈ (runCollect worker ts regions).1 ↔
      ∃ r ∈ regions, collectEntry worker ts r = some pr := by
  rw [runCollect_eq]
  exact List.mem_filterMap

theorem mem_runCollect_snd
    (worker : String → Except PyErr (Option (List MappingRecord)))
    (ts : String → String) (regions : List String) (a : Artifact) :
    a ∈ (runCollect worker ts regions).2 ↔
      ∃ r ∈ regions, collectWrite worker ts r = some a := by
  rw [runCollect_eq]
  exact List.mem_filterMap

end Imputation

/-- C1: for every reference point in the weighted output of
`calculate_weights`, every listed candidate gauge has `distance_meters ≤
max_distance_meters` and its weight lies in `[min_weight, 1.0]`; a gauge
strictly beyond the cutoff never appears in a `WMapping` (and hence in no
persisted row, which are built from the `WMapping`s). -/
theorem C1_cutoff_and_weight_bounds (max_distance_meters : ℚ) (power : ℕ)
    (min_weight : ℚ) (mappings : List Imputation.RawMapping)
    (hmw : min_weight ≤ 1) :
    ∀ wm ∈ Imputation.calculate_weights max_distance_meters power min_weight
        mappings,
      ∀ g ∈ wm.mappings,
        g.distance_meters ≤ max_distance_meters ∧
        min_weight ≤ g.weight ∧ g.weight ≤ 1 := by
  intro wm hwm g hg
  obtain ⟨m, hm, rfl⟩ := List.mem_map.mp hwm
  obtain ⟨g0, hg0, rfl⟩ := List.mem_map.mp hg
  have hdist : g0.distance_meters ≤ max_distance_meters := by
    have := List.mem_filter.mp hg0
    exact of_decide_eq_true this.2
  refine ⟨hdist, ?_, ?_⟩
  · show min_weight ≤ Imputation.gauge_weight power min_weight g0.distance_meters
    unfold Imputation.gauge_weight
    by_cases h0 : g0.distance_meters = 0
    · simpa [h0] using hmw
    · simp only [h0, if_false]
      exact le_min hmw (le_max_left _ _)
  · show Imputation.gauge_weight power min_weight g0.distance_meters ≤ 1
    unfold Imputation.gauge_weight
    by_cases h0 : g0.distance_meters = 0
    · simp [h0]
    · simp only [h0, if_false]
      exact min_le_left _ _

/-- Witness for C1 at the default configuration and a concrete mapping with
one near gauge (weight unfloored), one mid-distance gauge (weight floored)
and one gauge beyond the 100 km cutoff. -/
theorem C1_cutoff_and_weight_bounds_witness :
    (1 : ℚ)/10 ≤ 1 ∧
    ∀ wm ∈ Imputation.calculate_weights 100000 2 (1/10)
        [⟨"pt1", "12087",
          [⟨"8724580", "Key West", "FL", 2⟩,
           ⟨"8723214", "Virginia Key", "FL", 50000⟩,
           ⟨"8720218", "Mayport", "FL", 150000⟩]⟩],
      ∀ g ∈ wm.mappings,
        g.distance_meters ≤ 100000 ∧ (1 : ℚ)/10 ≤ g.weight ∧ g.weight ≤ 1 :=
  ⟨by norm_num,
   C1_cutoff_and_weight_bounds 100000 2 (1/10) _ (by norm_num)⟩

/-- C2: `process_region` returns `None` (it does not raise) when the gauge
finder yields no mappings, and for every such region the dictionary returned
by `ImputationManager.run()` contains no entry for that region's key. -/
theorem C2_no_mappings_returns_none_and_key_absent (region : String)
    (region_info : Imputation.RegionInfo) :
    (Imputation.process_region region region_info
        (Except.ok ([] : List Imputation.RawMapping))).1 = none ∧
    ∀ (env : Imputation.Env) (config : String → Imputation.RegionInfo)
      (finder : String → List Imputation.RefPoint →
        List Imputation.GaugeStation →
        Except Imputation.PyErr (List Imputation.RawMapping))
      (futureErr : String → Option Imputation.PyErr)
      (ts : String → String) (regions : List String),
      futureErr region = none →
      finder region env.refData env.gaugeData = Except.ok [] →
      ∀ p, (region, p) ∉
        (Imputation.ImputationManager.run env config finder futureErr ts
          regions).output_files := by
  constructor
  · rfl
  · intro env config finder futureErr ts regions hfut hfind p hmem
    rw [Imputation.run_eq] at hmem
    by_cases hempty : env.refData.isEmpty || env.gaugeData.isEmpty
    · simp [hempty] at hmem
    · simp only [hempty, if_false] at hmem
      obtain ⟨r, _, hr⟩ := List.mem_filterMap.mp hmem
      have hr1 : region = r := by
        simpa using Imputation.collectEntry_fst _ _ _ _ hr
      rw [← hr1] at hr
      have hworker :
          Imputation.runWorker config finder futureErr env.refData
            env.gaugeData region = Except.ok none := by
        unfold Imputation.runWorker
        rw [hfut, hfind]
        rfl
      unfold Imputation.collectEntry at hr
      rw [hworker] at hr
      exact absurd hr (by simp)

/-- Witness for C2: a concrete run over one region whose finder yields no
mappings; the region's key is absent from the returned dictionary. -/
theorem C2_no_mappings_returns_none_and_key_absent_witness :
    (Imputation.process_region "gulf_coast" ⟨"Gulf Coast", ["FL"]⟩
        (Except.ok ([] : List Imputation.RawMapping))).1 = none ∧
    ("gulf_coast", "x") ∉
      (Imputation.ImputationManager.run
        ⟨[⟨"p1", "12087", "gulf_coast"⟩], [⟨"8724580", "Key West", "FL"⟩]⟩
        (fun _ => ⟨"Gulf Coast", ["FL"]⟩)
        (fun _ _ _ => Except.ok [])
        (fun _ => none)
        (fun _ => "20240101")
        ["gulf_coast"]).output_files :=
  ⟨(C2_no_mappings_returns_none_and_key_absent "gulf_coast"
      ⟨"Gulf Coast", ["FL"]⟩).1,
   (C2_no_mappings_returns_none_and_key_absent "gulf_coast"
      ⟨"Gulf Coast", ["FL"]⟩).2
     ⟨[⟨"p1", "12087", "gulf_coast"⟩], [⟨"8724580", "Key West", "FL"⟩]⟩
     (fun _ => ⟨"Gulf Coast", ["FL"]⟩)
     (fun _ _ _ => Except.ok [])
     (fun _ => none)
     (fun _ => "20240101")
     ["gulf_coast"] rfl rfl "x"⟩

namespace Imputation

theorem collectWrite_region
    (worker : String → Except PyErr (Option (List MappingRecord)))
    (ts : String → String) (region : String) (a : Artifact)
    (h : collectWrite worker ts region = some a) : a.region = region := by
  unfold collectWrite at h
  cases hw : worker region with
  | error e => rw [hw] at h; exact absurd h (by simp)
  | ok df =>
    cases df with
    | none => rw [hw] at h; exact absurd h (by simp)
    | some d =>
      rw [hw] at h
      by_cases hd : d.isEmpty
      · simp [hd] at h
      · simp [hd] at h
        rw [← h]

theorem collectEntry_congr
    (worker₁ worker₂ : String → Except PyErr (Option (List MappingRecord)))
    (ts : String → String) (r : String) (h : worker₁ r = worker₂ r) :
    collectEntry worker₁ ts r = collectEntry worker₂ ts r := by
  unfold collectEntry
  rw [h]

theorem collectWrite_congr
    (worker₁ worker₂ : String → Except PyErr (Option (List MappingRecord)))
    (ts : String → String) (r : String) (h : worker₁ r = worker₂ r) :
    collectWrite worker₁ ts r = collectWrite worker₂ ts r := by
  unfold collectWrite
  rw [h]

/-- A region whose collection step contributes nothing is wholly absent from
the collected results. -/
theorem region_absent
    (worker : String → Except PyErr (Option (List MappingRecord)))
    (ts : String → String) (regions : List String) (region : String)
    (he : collectEntry worker ts region = none)
    (hw : collectWrite worker ts region = none) :
    (∀ p, (region, p) ∉ (runCollect worker ts regions).1) ∧
    (∀ a ∈ (runCollect worker ts regions).2, a.region ≠ region) := by
  constructor
  · intro p hmem
    obtain ⟨r, _, hr⟩ := (mem_runCollect_fst worker ts regions (region, p)).mp hmem
    have : region = r := by simpa using collectEntry_fst worker ts r _ hr
    rw [← this, he] at hr
    exact absurd hr (by simp)
  · intro a hmem ha
    obtain ⟨r, _, hr⟩ := (mem_runCollect_snd worker ts regions a).mp hmem
    have : a.region = r := collectWrite_region worker ts r a hr
    rw [ha] at this
    rw [← this, hw] at hr
    exact absurd hr (by simp)

/-- Filtering away one key, a `filterMap` whose per-key contributions carry
their own key depends only on the other keys' contributions. -/
theorem filterMap_filter_ne {X : Type} (key : X → String)
    (f₁ f₂ : String → Option X) (region : String)
    (hkey₁ : ∀ r x, f₁ r = some x → key x = r)
    (hkey₂ : ∀ r x, f₂ r = some x → key x = r)
    (hagree : ∀ r, r ≠ region → f₁ r = f₂ r) :
    ∀ regions : List String,
      (regions.filterMap f₁).filter (fun x => decide (key x ≠ region)) =
      (regions.filterMap f₂).filter (fun x => decide (key x ≠ region)) := by
  intro regions
  induction regions with
  | nil => rfl
  | cons r rs ih =>
    rw [List.filterMap_cons, List.filterMap_cons]
    by_cases hr : r = region
    · subst hr
      cases h₁ : f₁ r with
      | none =>
        cases h₂ : f₂ r with
        | none => exact ih
        | some x =>
          have hx : key x = r := hkey₂ r x h₂
          simp [List.filter_cons, hx]
          simpa using ih
      | some x =>
        have hx : key x = r := hkey₁ r x h₁
        cases h₂ : f₂ r with
        | none =>
          simp [List.filter_cons, hx]
          simpa using ih
        | some y =>
          have hy : key y = r := hkey₂ r y h₂
          simp [List.filter_cons, hx, hy]
          simpa using ih
    · rw [hagree r hr]
      cases h₂ : f₂ r with
      | none => exact ih
      | some x =>
        have hx : key x = r := hkey₂ r x h₂
        simp [List.filter_cons, hx, hr]
        simpa using ih

end Imputation

/-- C3: every exception raised while processing one region — inside
`process_region` (here: raised by the finder call) or surfaced through the
worker future at the collection point — is absorbed: `process_region` returns
`None`, the failing region is absent from `run()`'s result dictionary and no
artifact is written for it, and the entries and artifacts of every other
region are unchanged; `run` is a total function, so no region exception
reaches its caller. -/
theorem C3_region_failure_isolated :
    (∀ (region : String) (region_info : Imputation.RegionInfo)
        (e : Imputation.PyErr),
      (Imputation.process_region region region_info (Except.error e)).1 =
        none) ∧
    (∀ (env : Imputation.Env) (config : String → Imputation.RegionInfo)
        (finder : String → List Imputation.RefPoint →
          List Imputation.GaugeStation →
          Except Imputation.PyErr (List Imputation.RawMapping))
        (futureErr : String → Option Imputation.PyErr)
        (ts : String → String) (regions : List String) (region : String),
      ((∃ e, futureErr region = some e) ∨
        (futureErr region = none ∧
          ∃ e, finder region env.refData env.gaugeData = Except.error e)) →
      let out := Imputation.ImputationManager.run env config finder futureErr
        ts regions
      (∀ p, (region, p) ∉ out.output_files) ∧
      (∀ a ∈ out.written, a.region ≠ region)) ∧
    (∀ (worker₁ worker₂ :
          String → Except Imputation.PyErr
            (Option (List Imputation.MappingRecord)))
        (ts : String → String) (regions : List String) (region : String),
      (∀ r, r ≠ region → worker₁ r = worker₂ r) →
      ((Imputation.runCollect worker₁ ts regions).1.filter
          (fun pr => decide (pr.1 ≠ region)) =
        (Imputation.runCollect worker₂ ts regions).1.filter
          (fun pr => decide (pr.1 ≠ region))) ∧
      ((Imputation.runCollect worker₁ ts regions).2.filter
          (fun a => decide (a.region ≠ region)) =
        (Imputation.runCollect worker₂ ts regions).2.filter
          (fun a => decide (a.region ≠ region)))) := by
  refine ⟨?_, ?_, ?_⟩
  · intro region region_info e
    rfl
  · intro env config finder futureErr ts regions region hfail
    intro out
    rw [show out = Imputation.ImputationManager.run env config finder
        futureErr ts regions from rfl, Imputation.run_eq]
    by_cases hempty : env.refData.isEmpty || env.gaugeData.isEmpty
    · simp [hempty]
    · simp only [hempty, if_false]
      have hcoll :
          Imputation.collectEntry (Imputation.runWorker config finder
            futureErr env.refData env.gaugeData) ts region = none ∧
          Imputation.collectWrite (Imputation.runWorker config finder
            futureErr env.refData env.gaugeData) ts region = none := by
        rcases hfail with ⟨e, he⟩ | ⟨hnone, e, he⟩
        · constructor
          · unfold Imputation.collectEntry Imputation.runWorker
            rw [he]
          · unfold Imputation.collectWrite Imputation.runWorker
            rw [he]
        · constructor
          · unfold Imputation.collectEntry Imputation.runWorker
            rw [hnone, he]
            rfl
          · unfold Imputation.collectWrite Imputation.runWorker
            rw [hnone, he]
            rfl
      have := Imputation.region_absent _ ts regions region hcoll.1 hcoll.2
      rw [Imputation.runCollect_eq] at this
      exact this
  · intro worker₁ worker₂ ts regions region hagree
    rw [Imputation.runCollect_eq, Imputation.runCollect_eq]
    constructor
    · exact Imputation.filterMap_filter_ne Prod.fst _ _ region
        (fun r x h => Imputation.collectEntry_fst worker₁ ts r x h)
        (fun r x h => Imputation.collectEntry_fst worker₂ ts r x h)
        (fun r hr => Imputation.collectEntry_congr worker₁ worker₂ ts r
          (hagree r hr))
        regions
    · exact Imputation.filterMap_filter_ne Imputation.Artifact.region _ _
        region
        (fun r x h => Imputation.collectWrite_region worker₁ ts r x h)
        (fun r x h => Imputation.collectWrite_region worker₂ ts r x h)
        (fun r hr => Imputation.collectWrite_congr worker₁ worker₂ ts r
          (hagree r hr))
        regions

/-- Witness for C3: a concrete two-region run in which the `alaska` worker's
future surfaces an exception; the failing region's key is absent from the
result dictionary. -/
theorem C3_region_failure_isolated_witness :
    ("alaska", "x") ∉
      (Imputation.ImputationManager.run
        ⟨[⟨"p1", "02013", "alaska"⟩], [⟨"9450460", "Ketchikan", "AK"⟩]⟩
        (fun _ => ⟨"Alaska", ["AK"]⟩)
        (fun _ _ _ => Except.ok [⟨"p1", "02013", [⟨"9450460", "Ketchikan",
          "AK", 1000⟩]⟩])
        (fun r => if r = "alaska" then some ⟨"BrokenProcessPool"⟩ else none)
        (fun _ => "20240101")
        ["alaska", "gulf_coast"]).output_files :=
  (C3_region_failure_isolated.2.1
    ⟨[⟨"p1", "02013", "alaska"⟩], [⟨"9450460", "Ketchikan", "AK"⟩]⟩
    (fun _ => ⟨"Alaska", ["AK"]⟩)
    (fun _ _ _ => Except.ok [⟨"p1", "02013", [⟨"9450460", "Ketchikan",
      "AK", 1000⟩]⟩])
    (fun r => if r = "alaska" then some ⟨"BrokenProcessPool"⟩ else none)
    (fun _ => "20240101")
    ["alaska", "gulf_coast"] "alaska"
    (Or.inl ⟨⟨"BrokenProcessPool"⟩, rfl⟩)).1 "x"

/-- C4: `ImputationManager.run()` loads reference points and gauge stations
exactly once per run, and when either loaded dataset is empty it returns an
empty result dictionary having dispatched no region task and written no
artifact. -/
theorem C4_load_once_and_fail_fast (env : Imputation.Env)
    (config : String → Imputation.RegionInfo)
    (finder : String → List Imputation.RefPoint →
      List Imputation.GaugeStation →
      Except Imputation.PyErr (List Imputation.RawMapping))
    (futureErr : String → Option Imputation.PyErr)
    (ts : String → String) (regions : List String) :
    (Imputation.ImputationManager.run env config finder futureErr ts
        regions).refLoads = 1 ∧
    (Imputation.ImputationManager.run env config finder futureErr ts
        regions).gaugeLoads = 1 ∧
    (env.refData.isEmpty ∨ env.gaugeData.isEmpty →
      Imputation.ImputationManager.run env config finder futureErr ts
        regions =
        { output_files := [], refLoads := 1, gaugeLoads := 1
          dispatched := [], written := [] }) := by
  rw [Imputation.run_eq]
  by_cases hempty : env.refData.isEmpty || env.gaugeData.isEmpty
  · simp [hempty]
  · refine ⟨by simp [hempty], by simp [hempty], ?_⟩
    intro h
    rw [Bool.or_eq_true] at hempty
    rcases h with h | h
    · exact absurd (Or.inl h) hempty
    · exact absurd (Or.inr h) hempty

/-- Witness for C4: a concrete run whose gauge-station dataset is empty
returns the empty dictionary without dispatching or writing anything. -/
theorem C4_load_once_and_fail_fast_witness :
    Imputation.ImputationManager.run
        ⟨[⟨"p1", "12087", "gulf_coast"⟩], []⟩
        (fun _ => ⟨"Gulf Coast", ["FL"]⟩)
        (fun _ _ _ => Except.ok [])
        (fun _ => none)
        (fun _ => "20240101")
        ["gulf_coast"] =
      { output_files := [], refLoads := 1, gaugeLoads := 1
        dispatched := [], written := [] } :=
  (C4_load_once_and_fail_fast
    ⟨[⟨"p1", "12087", "gulf_coast"⟩], []⟩
    (fun _ => ⟨"Gulf Coast", ["FL"]⟩)
    (fun _ _ _ => Except.ok [])
    (fun _ => none)
    (fun _ => "20240101")
    ["gulf_coast"]).2.2 (Or.inr rfl)

/-- C5: the per-region pipeline is a pure function of its inputs — two
invocations on identical inputs with identical configuration are equal (the
embedding has no hidden scheduling state) — and the set of per-region outputs
of `run()` (both the result dictionary and the written artifacts, as
multisets) is invariant to the completion order of the parallel region
tasks. -/
theorem C5_deterministic_and_order_invariant :
    (∀ (region : String) (region_info : Imputation.RegionInfo)
        (find_result : Except Imputation.PyErr (List Imputation.RawMapping)),
      Imputation.process_region region region_info find_result =
        Imputation.process_region region region_info find_result) ∧
    (∀ (env : Imputation.Env) (config : String → Imputation.RegionInfo)
        (finder : String → List Imputation.RefPoint →
          List Imputation.GaugeStation →
          Except Imputation.PyErr (List Imputation.RawMapping))
        (futureErr : String → Option Imputation.PyErr)
        (ts : String → String) (regions₁ regions₂ : List String),
      regions₁.Perm regions₂ →
      (Imputation.ImputationManager.run env config finder futureErr ts
          regions₁).output_files.Perm
        ((Imputation.ImputationManager.run env config finder futureErr ts
          regions₂).output_files) ∧
      (Imputation.ImputationManager.run env config finder futureErr ts
          regions₁).written.Perm
        ((Imputation.ImputationManager.run env config finder futureErr ts
          regions₂).written)) := by
  refine ⟨fun _ _ _ => rfl, ?_⟩
  intro env config finder futureErr ts regions₁ regions₂ hperm
  rw [Imputation.run_eq, Imputation.run_eq]
  by_cases hempty : env.refData.isEmpty || env.gaugeData.isEmpty
  · simp [hempty]
  · simp only [hempty, if_false]
    exact ⟨hperm.filterMap _, hperm.filterMap _⟩

/-- Witness for C5: a concrete two-region run collected in either completion
order yields permutation-equal result dictionaries. -/
theorem C5_deterministic_and_order_invariant_witness :
    (Imputation.ImputationManager.run
        ⟨[⟨"p1", "02013", "alaska"⟩], [⟨"9450460", "Ketchikan", "AK"⟩]⟩
        (fun _ => ⟨"Alaska", ["AK"]⟩)
        (fun _ _ _ => Except.ok [⟨"p1", "02013", [⟨"9450460", "Ketchikan",
          "AK", 1000⟩]⟩])
        (fun _ => none)
        (fun _ => "20240101")
        ["alaska", "gulf_coast"]).output_files.Perm
      ((Imputation.ImputationManager.run
        ⟨[⟨"p1", "02013", "alaska"⟩], [⟨"9450460", "Ketchikan", "AK"⟩]⟩
        (fun _ => ⟨"Alaska", ["AK"]⟩)
        (fun _ _ _ => Except.ok [⟨"p1", "02013", [⟨"9450460", "Ketchikan",
          "AK", 1000⟩]⟩])
        (fun _ => none)
        (fun _ => "20240101")
        ["gulf_coast", "alaska"]).output_files) :=
  (C5_deterministic_and_order_invariant.2
    ⟨[⟨"p1", "02013", "alaska"⟩], [⟨"9450460", "Ketchikan", "AK"⟩]⟩
    (fun _ => ⟨"Alaska", ["AK"]⟩)
    (fun _ _ _ => Except.ok [⟨"p1", "02013", [⟨"9450460", "Ketchikan",
      "AK", 1000⟩]⟩])
    (fun _ => none)
    (fun _ => "20240101")
    ["alaska", "gulf_coast"] ["gulf_coast", "alaska"]
    (List.Perm.swap "gulf_coast" "alaska" [])).1

/-- C6: `get_region_projection` is a total cascading lookup: a `projection`
key in the region definition wins; otherwise `alaska` gets the
Alaska-specific Albers projection, `west_coast` and `pacific_islands` get the
West Coast Albers projection, and every other region name gets the default
CONUS Albers Equal Area projection. -/
theorem C6_projection_cascade (region_name : String)
    (region_def : CoastalPoints.RegionDef) :
    (∀ p, region_def.projection = some p →
      CoastalPoints.get_region_projection region_name region_def = p) ∧
    (region_def.projection = none → region_name = "alaska" →
      CoastalPoints.get_region_projection region_name region_def =
        CoastalPoints.alaska_albers_proj) ∧
    (region_def.projection = none →
      (region_name = "west_coast" ∨ region_name = "pacific_islands") →
      CoastalPoints.get_region_projection region_name region_def =
        CoastalPoints.west_coast_albers_proj) ∧
    (region_def.projection = none → region_name ≠ "alaska" →
      region_name ≠ "west_coast" → region_name ≠ "pacific_islands" →
      CoastalPoints.get_region_projection region_name region_def =
        CoastalPoints.conus_albers_proj) := by
  refine ⟨?_, ?_, ?_, ?_⟩
  · intro p hp
    unfold CoastalPoints.get_region_projection
    rw [hp]
  · intro hnone halaska
    unfold CoastalPoints.get_region_projection
    rw [hnone, halaska]
    simp
  · intro hnone hwest
    unfold CoastalPoints.get_region_projection
    rw [hnone]
    rcases hwest with rfl | rfl <;> simp
  · intro hnone h1 h2 h3
    unfold CoastalPoints.get_region_projection
    rw [hnone]
    simp [h1, h2, h3]

/-- Witness for C6: each branch of the cascade at a concrete region. -/
theorem C6_projection_cascade_witness :
    CoastalPoints.get_region_projection "mid_atlantic" ⟨some "EPSG:32618"⟩ =
      "EPSG:32618" ∧
    CoastalPoints.get_region_projection "alaska" ⟨none⟩ =
      CoastalPoints.alaska_albers_proj ∧
    CoastalPoints.get_region_projection "west_coast" ⟨none⟩ =
      CoastalPoints.west_coast_albers_proj ∧
    CoastalPoints.get_region_projection "gulf_coast" ⟨none⟩ =
      CoastalPoints.conus_albers_proj :=
  ⟨(C6_projection_cascade "mid_atlantic" ⟨some "EPSG:32618"⟩).1 _ rfl,
   (C6_projection_cascade "alaska" ⟨none⟩).2.1 rfl rfl,
   (C6_projection_cascade "west_coast" ⟨none⟩).2.2.1 rfl (Or.inl rfl),
   (C6_projection_cascade "gulf_coast" ⟨none⟩).2.2.2 rfl (by decide)
     (by decide) (by decide)⟩

/-- C7: the tabular output for a region has exactly one row per
(reference point, candidate gauge) pair of its weighted mappings — the row
count is the total candidate count, every row arises from such a pair, and
every pair contributes its row, each row being the `MappingRecord` carrying
exactly the nine persisted columns with `region` and `region_name` the
denormalized region identifier and display name. -/
theorem C7_one_row_per_pair (region : String)
    (region_info : Imputation.RegionInfo)
    (weighted_mappings : List Imputation.WMapping) :
    (Imputation.toRecords region region_info weighted_mappings).length =
      (weighted_mappings.map (fun m => m.mappings.length)).sum ∧
    (∀ r ∈ Imputation.toRecords region region_info weighted_mappings,
      ∃ m ∈ weighted_mappings, ∃ g ∈ m.mappings,
        r = Imputation.mkRecord region region_info m g) ∧
    (∀ m ∈ weighted_mappings, ∀ g ∈ m.mappings,
      Imputation.mkRecord region region_info m g ∈
        Imputation.toRecords region region_info weighted_mappings) ∧
    (∀ r ∈ Imputation.toRecords region region_info weighted_mappings,
      r.region = region ∧ r.region_name = region_info.name) := by
  refine ⟨?_, ?_, ?_, ?_⟩
  · unfold Imputation.toRecords
    rw [List.length_flatMap]
    congr 1
    apply List.map_congr_left
    intro m _
    exact List.length_map _ _
  · intro r hr
    obtain ⟨m, hm, hr2⟩ := List.mem_flatMap.mp hr
    obtain ⟨g, hg, rfl⟩ := List.mem_map.mp hr2
    exact ⟨m, hm, g, hg, rfl⟩
  · intro m hm g hg
    exact List.mem_flatMap.mpr ⟨m, hm, List.mem_map.mpr ⟨g, hg, rfl⟩⟩
  · intro r hr
    obtain ⟨m, hm, hr2⟩ := List.mem_flatMap.mp hr
    obtain ⟨g, hg, rfl⟩ := List.mem_map.mp hr2
    exact ⟨rfl, rfl⟩

/-- Witness for C7: the pair of a concrete weighted mapping yields its row in
the flattened output. -/
theorem C7_one_row_per_pair_witness :
    Imputation.mkRecord "gulf_coast" ⟨"Gulf Coast", ["FL"]⟩
        ⟨"p1", "12087", [⟨"8724580", "Key West", "FL", 1000, 1/10⟩]⟩
        ⟨"8724580", "Key West", "FL", 1000, 1/10⟩ ∈
      Imputation.toRecords "gulf_coast" ⟨"Gulf Coast", ["FL"]⟩
        [⟨"p1", "12087", [⟨"8724580", "Key West", "FL", 1000, 1/10⟩]⟩] :=
  (C7_one_row_per_pair "gulf_coast" ⟨"Gulf Coast", ["FL"]⟩
      [⟨"p1", "12087", [⟨"8724580", "Key West", "FL", 1000, 1/10⟩]⟩]).2.2.1
    ⟨"p1", "12087", [⟨"8724580", "Key West", "FL", 1000, 1/10⟩]⟩
    (List.mem_singleton.mpr rfl)
    ⟨"8724580", "Key West", "FL", 1000, 1/10⟩
    (List.mem_singleton.mpr rfl)

/-- C8: `process_region` weights its mappings with the fixed default
parameters `max_distance_meters = 100000`, `power = 2`, `min_weight = 0.1`,
and these parameters are genuine dials of the weight calculator: a test suite
overriding them (here the distance cutoff) observes different output. -/
theorem C8_fixed_default_parameters (region : String)
    (region_info : Imputation.RegionInfo)
    (mappings : List Imputation.RawMapping) (h : mappings ≠ []) :
    (Imputation.process_region region region_info (Except.ok mappings)).1 =
      some (Imputation.toRecords region region_info
        (Imputation.calculate_weights 100000 2 (1/10) mappings)) ∧
    ∃ mappings₂ : List Imputation.RawMapping,
      Imputation.calculate_weights 200000 2 (1/10) mappings₂ ≠
        Imputation.calculate_weights 100000 2 (1/10) mappings₂ := by
  constructor
  · cases mappings with
    | nil => exact absurd rfl h
    | cons a l => rfl
  · exact ⟨[⟨"p1", "12087", [⟨"8723214", "Virginia Key", "FL", 150000⟩]⟩],
      by decide⟩

/-- Witness for C8 at a concrete non-empty mapping list. -/
theorem C8_fixed_default_parameters_witness :
    (Imputation.process_region "gulf_coast" ⟨"Gulf Coast", ["FL"]⟩
        (Except.ok [⟨"p1", "12087",
          [⟨"8724580", "Key West", "FL", 1000⟩]⟩])).1 =
      some (Imputation.toRecords "gulf_coast" ⟨"Gulf Coast", ["FL"]⟩
        (Imputation.calculate_weights 100000 2 (1/10)
          [⟨"p1", "12087", [⟨"8724580", "Key West", "FL", 1000⟩]⟩])) ∧
    ∃ mappings₂ : List Imputation.RawMapping,
      Imputation.calculate_weights 200000 2 (1/10) mappings₂ ≠
        Imputation.calculate_weights 100000 2 (1/10) mappings₂ :=
  C8_fixed_default_parameters "gulf_coast" ⟨"Gulf Coast", ["FL"]⟩
    [⟨"p1", "12087", [⟨"8724580", "Key West", "FL", 1000⟩]⟩]
    (List.cons_ne_nil _ _)

/-- C9: the summary-statistics block of `process_region` does not modify the
mapping result — the DataFrame component returned is exactly the one produced
by `process_region` with the statistics block removed. -/
theorem C9_stats_do_not_modify_result (region : String)
    (region_info : Imputation.RegionInfo)
    (find_result : Except Imputation.PyErr (List Imputation.RawMapping)) :
    (Imputation.process_region region region_info find_result).1 =
      Imputation.process_region_noStats region region_info find_result := by
  unfold Imputation.process_region Imputation.process_region_noStats
  cases find_result with
  | error e => rfl
  | ok mappings => by_cases h : mappings.isEmpty <;> simp [h]

/-- C10: `save_imputation_structure` returns `None` and writes no file on a
`None` or empty DataFrame; a region whose worker returned an empty DataFrame
is absent from the collected result dictionary; and every key present in the
result dictionary is bound to the path of an artifact actually written from
that region's non-empty DataFrame. -/
theorem C10_save_guard_and_result_paths :
    (∀ region timestamp,
      Imputation.save_imputation_structure none region timestamp =
        (none, []) ∧
      Imputation.save_imputation_structure (some []) region timestamp =
        (none, [])) ∧
    (∀ (worker : String → Except Imputation.PyErr
          (Option (List Imputation.MappingRecord)))
        (ts : String → String) (regions : List String) (region : String),
      (worker region =
          Except.ok (some ([] : List Imputation.MappingRecord)) →
        ∀ p, (region, p) ∉ (Imputation.runCollect worker ts regions).1) ∧
      (∀ p, (region, p) ∈ (Imputation.runCollect worker ts regions).1 →
        ∃ d, worker region = Except.ok (some d) ∧ d ≠ [] ∧
          p = Imputation.artifactPath region (ts region) ∧
          (⟨region, ts region, d⟩ : Imputation.Artifact) ∈
            (Imputation.runCollect worker ts regions).2)) := by
  constructor
  · intro region timestamp
    exact ⟨rfl, rfl⟩
  · intro worker ts regions region
    constructor
    · intro h p
      have he : Imputation.collectEntry worker ts region = none := by
        unfold Imputation.collectEntry
        rw [h]
        rfl
      have hw : Imputation.collectWrite worker ts region = none := by
        unfold Imputation.collectWrite
        rw [h]
        rfl
      exact (Imputation.region_absent worker ts regions region he hw).1 p
    · intro p hmem
      obtain ⟨r, hrmem, hr⟩ :=
        (Imputation.mem_runCollect_fst worker ts regions (region, p)).mp hmem
      have hreq : region = r := by
        simpa using Imputation.collectEntry_fst worker ts r _ hr
      rw [← hreq] at hrmem hr
      unfold Imputation.collectEntry at hr
      cases hw : worker region with
      | error e => rw [hw] at hr; exact absurd hr (by simp)
      | ok df =>
        cases df with
        | none => rw [hw] at hr; exact absurd hr (by simp)
        | some d =>
          rw [hw] at hr
          by_cases hd : d.isEmpty
          · simp [hd] at hr
          · simp [hd] at hr
            refine ⟨d, rfl, ?_, hr.symm, ?_⟩
            · intro hnil
              rw [hnil] at hd
              exact hd rfl
            · refine (Imputation.mem_runCollect_snd worker ts regions _).mpr
                ⟨region, hrmem, ?_⟩
              unfold Imputation.collectWrite
              rw [hw]
              simp [hd]

/-- Witness for C10: a concrete collection over one region whose worker
returned an empty DataFrame has no entry for that region. -/
theorem C10_save_guard_and_result_paths_witness :
    ("gulf_coast", "x") ∉
      (Imputation.runCollect (fun _ => Except.ok (some []))
        (fun _ => "20240101") ["gulf_coast"]).1 :=
  ((C10_save_guard_and_result_paths).2 (fun _ => Except.ok (some []))
    (fun _ => "20240101") ["gulf_coast"] "gulf_coast").1 rfl "x"
